import Mathlib

/-!
Shallow embedding of the deterministic lesson-format decision engine from
`src/lib/explain.ts` and `src/lib/shared.ts`.  JavaScript numbers are
modelled as rationals (all arithmetic in the engine is exact decimal
arithmetic on small constants), JavaScript strings as Lean `String`,
and the three-valued style union as an inductive type.
-/

namespace Explain

/-- Embeds the `LessonStyle` union type from src/lib/shared.ts. -/
inductive LessonStyle where
  | text
  | visual
  | quiz
  deriving DecidableEq

/-- Renders a `LessonStyle` as the string value it is in the source. -/
def styleName : LessonStyle → String
  | .text => "text"
  | .visual => "visual"
  | .quiz => "quiz"

/-- Embeds `DECISION_POLICY_VERSION` from src/lib/shared.ts. -/
def DECISION_POLICY_VERSION : String := "v1.3.0 — confidence-weighted"

/-- Embeds the `ExplainInput` record type from src/lib/explain.ts. -/
structure ExplainInput where
  topic : String
  priorKnowledge : String
  confidence : ℚ
  delta : ℚ
  startingStyle : LessonStyle
  deriving DecidableEq

/-- Embeds `clamp` from src/lib/explain.ts: `Math.max(min, Math.min(max, n))`. -/
def clamp (n mn mx : ℚ) : ℚ := max mn (min mx n)

/-- Does the character list start with the given pattern (first argument)? -/
def leadsWith : List Char → List Char → Bool
  | [], _ => true
  | _ :: _, [] => false
  | p :: ps, c :: cs => p == c && leadsWith ps cs

/-- Does the character list (second argument) contain the pattern anywhere? -/
def includesSeq (pat : List Char) : List Char → Bool
  | [] => leadsWith pat []
  | c :: cs => leadsWith pat (c :: cs) || includesSeq pat cs

/-- Embeds JavaScript `String.prototype.includes` (substring containment). -/
def strIncludes (s pat : String) : Bool := includesSeq pat.data s.data

/-- Embeds JavaScript `String.prototype.toLowerCase` at the ASCII level. -/
def lowerStr (s : String) : String := ⟨s.data.map Char.toLower⟩

/-- Embeds JavaScript `String.prototype.trim`. -/
def trimStr (s : String) : String :=
  ⟨((s.data.dropWhile Char.isWhitespace).reverse.dropWhile Char.isWhitespace).reverse⟩

/-- Embeds `normalize` from src/lib/explain.ts: `(s || "").trim()`. -/
def normalize (s : String) : String := trimStr s

/-- Result record of `detectKnowledgeSignals` in src/lib/explain.ts. -/
structure KnowledgeSignals where
  priorKnowledge : String
  isEmpty : Bool
  mentionsAdvanced : Bool
  mentionsBeginner : Bool
  mentionsExamples : Bool
  mentionsVisual : Bool
  deriving DecidableEq

/-- Embeds `detectKnowledgeSignals` from src/lib/explain.ts. -/
def detectKnowledgeSignals (priorKnowledgeRaw : String) : KnowledgeSignals :=
  let priorKnowledge := normalize priorKnowledgeRaw
  let lower := lowerStr priorKnowledge
  let mentionsAdvanced :=
    strIncludes lower ("advanced") || strIncludes lower ("advance") ||
    strIncludes lower ("expert") || strIncludes lower ("comfortable") ||
    strIncludes lower ("strong")
  let mentionsBeginner :=
    strIncludes lower ("beginner") || strIncludes lower ("new") ||
    strIncludes lower ("never") || strIncludes lower ("not much") ||
    strIncludes lower ("basic") || strIncludes lower ("little")
  let mentionsExamples :=
    strIncludes lower ("example") || strIncludes lower ("practice") ||
    strIncludes lower ("exercise") || strIncludes lower ("problem") ||
    strIncludes lower ("quiz")
  let mentionsVisual :=
    strIncludes lower ("diagram") || strIncludes lower ("visual") ||
    strIncludes lower ("chart") || strIncludes lower ("graph") ||
    strIncludes lower ("picture")
  let isEmpty := priorKnowledge.length == 0
  ⟨priorKnowledge, isEmpty, mentionsAdvanced, mentionsBeginner, mentionsExamples, mentionsVisual⟩

/-- Embeds `confidenceLabel` from src/lib/explain.ts. -/
def confidenceLabel (confidence : ℚ) : String :=
  let c := clamp confidence 1 5
  if c ≤ 2 then ("low") else if c = 3 then ("medium") else ("high")

/-- Embeds `confidenceScore` from src/lib/explain.ts. -/
def confidenceScore (confidence : ℚ) : ℚ :=
  (clamp confidence 1 5 - 1) / 4

/-- Embeds `deltaBand` from src/lib/explain.ts. -/
def deltaBand (delta : ℚ) : String :=
  if delta < 20 then ("small") else if delta < 40 then ("moderate") else ("large")

/-- Embeds `deltaScore` from src/lib/explain.ts. -/
def deltaScore (delta : ℚ) : ℚ := clamp (delta / 60) 0 1

/-- Embeds `styleLabel` from src/lib/explain.ts. -/
def styleLabel : LessonStyle → String
  | .visual => "visual explanations"
  | .text => "step-by-step text explanations"
  | .quiz => "guided quizzes"

/-- Embeds `nextStepPreview` from src/lib/explain.ts. -/
def nextStepPreview (style : LessonStyle) (topic : String) : String :=
  let t := if normalize topic = "" then ("this topic") else normalize topic
  match style with
  | .visual => "Next up: a visual walkthrough of " ++ t ++ " using simple diagrams and annotated examples."
  | .text => "Next up: a clear, structured explanation of " ++ t ++ ", with short checkpoints to confirm understanding."
  | .quiz => "Next up: short quiz-style prompts on " ++ t ++ " so you can apply the idea and spot gaps quickly."

/-- Embeds `knowledgeLabel` from src/lib/explain.ts. -/
def knowledgeLabel (priorKnowledgeRaw : String) : String :=
  let k := detectKnowledgeSignals priorKnowledgeRaw
  if k.isEmpty then ("unknown")
  else if k.mentionsAdvanced && !k.mentionsBeginner then ("advanced")
  else if k.mentionsBeginner && !k.mentionsAdvanced then ("beginner")
  else ("mixed")

/-- Result record of `detectCalibration` in src/lib/explain.ts. -/
structure CalibrationState where
  confBand : String
  dBand : String
  isOverconfident : Bool
  isUnderconfident : Bool
  deriving DecidableEq

/-- Embeds `detectCalibration` from src/lib/explain.ts. -/
def detectCalibration (confidence delta : ℚ) : CalibrationState :=
  let confBand := confidenceLabel confidence
  let dBand := deltaBand delta
  let isOverconfident := confBand == "high" && dBand == "small"
  let isUnderconfident := confBand == "low" && dBand == "large"
  ⟨confBand, dBand, isOverconfident, isUnderconfident⟩

/-- The `weights` constant object in `decideNextStyle` (src/lib/explain.ts). -/
structure Weights where
  delta : ℚ
  confidence : ℚ
  priorKnowledge : ℚ
  startingStyle : ℚ

/-- Embeds the fixed weight table of `decideNextStyle` in src/lib/explain.ts. -/
def weights : Weights := ⟨0.45, 0.35, 0.15, 0.05⟩

/-- The `scores: Record<LessonStyle, number>` object of `decideNextStyle`. -/
structure StyleScores where
  visual : ℚ
  text : ℚ
  quiz : ℚ
  deriving DecidableEq

/-- Index a `StyleScores` record by style, as `scores[s]` does in the source. -/
def StyleScores.get (s : StyleScores) : LessonStyle → ℚ
  | .visual => s.visual
  | .text => s.text
  | .quiz => s.quiz

/-- The mutation `scores[style] += v` from src/lib/explain.ts. -/
def StyleScores.add (s : StyleScores) (style : LessonStyle) (v : ℚ) : StyleScores :=
  match style with
  | .visual => { s with visual := s.visual + v }
  | .text => { s with text := s.text + v }
  | .quiz => { s with quiz := s.quiz + v }

/-- The score accumulation of `decideNextStyle` (src/lib/explain.ts) before
the calibration adjustment: delta signal, confidence signal, prior-knowledge
signal and starting-style bias, added in source order. -/
def baseScores (input : ExplainInput) : StyleScores :=
  let confN := confidenceScore input.confidence
  let deltaN := deltaScore input.delta
  let kLabel := knowledgeLabel input.priorKnowledge
  let s : StyleScores := ⟨0, 0, 0⟩
  let s := { s with
      visual := s.visual + weights.delta * (1 - deltaN),
      text := s.text + weights.delta * (1 - |deltaN - 0.5| * 2),
      quiz := s.quiz + weights.delta * deltaN }
  let s := { s with
      visual := s.visual + weights.confidence * (1 - confN),
      text := s.text + weights.confidence * (1 - |confN - 0.5| * 2),
      quiz := s.quiz + weights.confidence * confN }
  let s :=
    if kLabel == "advanced" then { s with quiz := s.quiz + weights.priorKnowledge * 1 }
    else if kLabel == "beginner" || kLabel == "unknown" then
      { s with visual := s.visual + weights.priorKnowledge * 1 }
    else { s with text := s.text + weights.priorKnowledge * 1 }
  s.add input.startingStyle weights.startingStyle

/-- The calibration adjustment of `decideNextStyle` (src/lib/explain.ts),
applied to the accumulated scores. -/
def calibratedScores (input : ExplainInput) : StyleScores :=
  let s := baseScores input
  let calibration := detectCalibration input.confidence input.delta
  let s := if calibration.isOverconfident then
      { s with quiz := s.quiz - 0.08, text := s.text + 0.05, visual := s.visual + 0.03 }
    else s
  let s := if calibration.isUnderconfident then
      { s with quiz := s.quiz + 0.07, text := s.text - 0.04, visual := s.visual - 0.03 }
    else s
  s

/-- The fixed iteration order `["text", "visual", "quiz"]` of the winner loop. -/
def orderedStyles : List LessonStyle := [.text, .visual, .quiz]

/-- The winner-selection loop of `decideNextStyle` (src/lib/explain.ts):
start from `text` and replace the current best only on a strictly greater
score, scanning in the fixed order. -/
def selectBest (scores : StyleScores) : LessonStyle :=
  orderedStyles.foldl (fun best s => if scores.get s > scores.get best then s else best)
    LessonStyle.text

/-- The `contributions` record of `decideNextStyle` in src/lib/explain.ts. -/
structure Contributions where
  delta : ℚ
  confidence : ℚ
  priorKnowledge : ℚ
  startingStyle : ℚ
  deriving DecidableEq

/-- Result record of `decideNextStyle` in src/lib/explain.ts. -/
structure DecideResult where
  nextStyle : LessonStyle
  scores : StyleScores
  contributions : Contributions
  deriving DecidableEq

/-- Embeds `decideNextStyle` from src/lib/explain.ts. -/
def decideNextStyle (input : ExplainInput) : DecideResult :=
  let confN := confidenceScore input.confidence
  let deltaN := deltaScore input.delta
  let kLabel := knowledgeLabel input.priorKnowledge
  let scores := calibratedScores input
  let nextStyle := selectBest scores
  let contributions : Contributions :=
    ⟨weights.delta * (|deltaN - 0.5| + 0.25),
     weights.confidence * (|confN - 0.5| + 0.25),
     weights.priorKnowledge * (if kLabel == "mixed" then 0.6 else 1),
     weights.startingStyle⟩
  ⟨nextStyle, scores, contributions⟩

/-- Embeds `decisionTitle` from src/lib/explain.ts. -/
def decisionTitle : LessonStyle → String
  | .visual => "Increase guidance with visuals"
  | .text => "Keep a steady, structured explanation"
  | .quiz => "Shift toward practice with quizzes"

/-- Renders a rational the way a JavaScript template literal renders the
number when it is an integer (all displayed engine values are integers in
the reference flow). -/
def jsNumStr (q : ℚ) : String :=
  if q.den = 1 then toString q.num else toString q.num ++ "/" ++ toString q.den

/-- The reasons block of `buildExplainability` (src/lib/explain.ts), with the
pushes in source order. -/
def buildReasons (input : ExplainInput) : List String :=
  let topic := if normalize input.topic = "" then ("the topic") else normalize input.topic
  let conf := clamp input.confidence 1 5
  let confBand := confidenceLabel conf
  let dBand := deltaBand input.delta
  let k := detectKnowledgeSignals input.priorKnowledge
  let nextStyle := (decideNextStyle input).nextStyle
  let calibration := detectCalibration conf input.delta
  let r1 := "Based on your confidence level (" ++ jsNumStr conf ++ "/5, " ++ confBand ++ "), the system adjusted guidance vs. practice."
  let r2 :=
    if k.isEmpty then
      "Because your prior knowledge response was brief, the system assumed we should validate foundations before moving fast."
    else if k.mentionsAdvanced && !k.mentionsBeginner then
      "Because your prior knowledge indicates familiarity (“" ++ k.priorKnowledge ++ "”), the system inferred you can handle less repetition."
    else if k.mentionsBeginner && !k.mentionsAdvanced then
      "Because your prior knowledge indicates you’re early in the topic (“" ++ k.priorKnowledge ++ "”), the system inferred you’ll benefit from clearer scaffolding."
    else
      "Because your prior knowledge indicates mixed familiarity (“" ++ k.priorKnowledge ++ "”), the system inferred we should balance explanation with checks."
  let r3 := "The system inferred that your learning delta (+" ++ jsNumStr input.delta ++ ") is " ++ dBand ++ ", which determines how strongly it adapts the format."
  [r1, r2, r3] ++
  (if calibration.isOverconfident then
      ["Confidence calibration: your confidence reads as high, but the learning delta is small. The system treated this as a signal to add explanation before more practice."]
    else []) ++
  (if calibration.isUnderconfident then
      ["Confidence calibration: your confidence reads as low, but the learning delta is large. The system treated this as a signal to introduce practice earlier than your self-report suggests."]
    else []) ++
  (if nextStyle = LessonStyle.visual ∧ k.mentionsVisual then
      ["You mentioned visual learning cues, so the system prioritized diagrams to reduce cognitive load for " ++ topic ++ "."]
    else []) ++
  (if nextStyle = LessonStyle.quiz ∧ (k.mentionsExamples ∨ confBand = "high") then
      ["Because you signaled readiness for practice, the system moved toward application-focused questions rather than more explanation."]
    else [])

/-- The `Object.entries` view of the contributions object, in insertion
order, as `buildExplainability` consumes it. -/
def contribEntries (c : Contributions) : List (String × ℚ) :=
  [("delta", c.delta), ("confidence", c.confidence),
   ("priorKnowledge", c.priorKnowledge), ("startingStyle", c.startingStyle)]

/-- Stable insertion step for the descending sort by contribution value. -/
def insertByValue (x : String × ℚ) : List (String × ℚ) → List (String × ℚ)
  | [] => [x]
  | y :: ys => if x.2 ≥ y.2 then x :: y :: ys else y :: insertByValue x ys

/-- Stable descending sort by contribution value, embedding the stable
JavaScript `sort((a, b) => b[1] - a[1])` of `buildExplainability`. -/
def sortByValue : List (String × ℚ) → List (String × ℚ)
  | [] => []
  | x :: xs => insertByValue x (sortByValue xs)

/-- The `topSignals` computation of `buildExplainability`: names of the two
contributions of highest influence magnitude, ties kept in insertion order. -/
def topSignalNames (input : ExplainInput) : List String :=
  (((sortByValue (contribEntries (decideNextStyle input).contributions)).map Prod.fst).take 2)

/-- The `decisionTrace` template literal of `buildExplainability`. -/
def decisionTraceStr (input : ExplainInput) : String :=
  let conf := clamp input.confidence 1 5
  let confBand := confidenceLabel conf
  let dBand := deltaBand input.delta
  let nextStyle := (decideNextStyle input).nextStyle
  let kLabel := knowledgeLabel input.priorKnowledge
  let topSignals := String.intercalate (",") (topSignalNames input)
  "policy=" ++ DECISION_POLICY_VERSION ++ " • start=" ++ styleName input.startingStyle ++
    " → next=" ++ styleName nextStyle ++ " • conf=" ++ jsNumStr conf ++ "/5(" ++ confBand ++
    ") • knowledge=" ++ kLabel ++ " • delta=+" ++ jsNumStr input.delta ++ "(" ++ dBand ++
    ") • top=" ++ topSignals

/-- Result record of `buildExplainability` in src/lib/explain.ts. -/
structure Explainability where
  decision : String
  nextStyle : LessonStyle
  reasons : List String
  decisionTrace : String
  deriving DecidableEq

/-- Embeds `buildExplainability` from src/lib/explain.ts. -/
def buildExplainability (input : ExplainInput) : Explainability :=
  let nextStyle := (decideNextStyle input).nextStyle
  ⟨decisionTitle nextStyle, nextStyle, buildReasons input, decisionTraceStr input⟩

/-- The ordered narrative segments of `buildTutorInsight` (src/lib/explain.ts):
opener, profile, knowledge, confidence, calibration, adaptation, the two plan
lines, nudge and closing preview. -/
def tutorInsightLines (input : ExplainInput) : List String :=
  let topic := if normalize input.topic = "" then ("this topic") else normalize input.topic
  let conf := clamp input.confidence 1 5
  let dBand := deltaBand input.delta
  let k := detectKnowledgeSignals input.priorKnowledge
  let style := (decideNextStyle input).nextStyle
  let calibration := detectCalibration conf input.delta
  let knowledgeTier :=
    if k.isEmpty then ("unknown")
    else if k.mentionsAdvanced && !k.mentionsBeginner then ("advanced")
    else if k.mentionsBeginner && !k.mentionsAdvanced then ("beginner")
    else ("intermediate")
  let opener :=
    if dBand = "large" then "You made a strong jump on " ++ topic ++ "."
    else if dBand = "moderate" then "You’re building momentum on " ++ topic ++ "."
    else "You’re getting started on " ++ topic ++ ", and the signals are useful already."
  let knowledgeLine :=
    if knowledgeTier = "unknown" then
      "Prior knowledge: I didn’t get much detail, so I’ll confirm the basics first."
    else if knowledgeTier = "advanced" then
      "Prior knowledge: you seem advanced (“" ++ k.priorKnowledge ++ "”). I’ll skip definitions and focus on edge-cases + application."
    else if knowledgeTier = "beginner" then
      "Prior knowledge: you seem beginner (“" ++ k.priorKnowledge ++ "”). I’ll go step-by-step with simple examples."
    else
      "Prior knowledge: you seem mixed (“" ++ k.priorKnowledge ++ "”). I’ll keep it concise and use quick checks to locate gaps."
  let confidenceLine :=
    if conf = 1 then "Confidence: " ++ jsNumStr conf ++ "/5 (very low). We’ll go slowly, with lots of worked examples and “why” explanations."
    else if conf = 2 then "Confidence: " ++ jsNumStr conf ++ "/5 (low). We’ll use smaller steps and frequent checks so you don’t get stuck."
    else if conf = 3 then "Confidence: " ++ jsNumStr conf ++ "/5 (medium). We’ll keep a steady pace with checkpoints in common confusion spots."
    else if conf = 4 then "Confidence: " ++ jsNumStr conf ++ "/5 (high). We’ll move faster and switch to practice sooner."
    else "Confidence: " ++ jsNumStr conf ++ "/5 (very high). Expect challenge questions and fewer hints."
  let calibrationLine :=
    if calibration.isOverconfident then
      "Calibration note: your confidence is high, but the learning delta is small. I’ll slow the ramp and make the model explicit before adding more practice."
    else if calibration.isUnderconfident then
      "Calibration note: your confidence is low, but the learning delta is large. You’re performing stronger than you’re rating yourself—so we’ll introduce practice a bit earlier."
    else "Calibration note: your confidence and learning delta appear aligned."
  let profileLine := "Profile: knowledge=" ++ knowledgeTier ++ " • confidence=" ++ jsNumStr conf ++ "/5 • delta=+" ++ jsNumStr input.delta ++ " (" ++ dBand ++ ")."
  let adaptationLine :=
    if style = LessonStyle.visual then
      "Because your learning delta was +" ++ jsNumStr input.delta ++ ", the system chose " ++ styleLabel style ++ " to make the mental model click before you grind problems."
    else if style = LessonStyle.text then
      "Because your learning delta was +" ++ jsNumStr input.delta ++ ", the system chose " ++ styleLabel style ++ " so you can build consistency without changing formats mid-stream."
    else
      "Because your learning delta was +" ++ jsNumStr input.delta ++ ", the system chose " ++ styleLabel style ++ "—that’s the fastest way to expose what’s solid vs. what needs review."
  let nudge :=
    if style = LessonStyle.quiz then
      "Tip: if you miss a question, don’t push through—pause and explain the “why” in one sentence first."
    else if style = LessonStyle.visual then
      "Tip: as you watch the diagram, narrate each step out loud once. That’s where understanding becomes durable."
    else
      "Tip: after each section, write a 1-line summary in your own words. That’s the quickest comprehension check."
  let plan1 :=
    if knowledgeTier = "beginner" then
      (if conf ≤ 2 then "Plan: start with 2–3 ultra-simple examples, then you do 1 guided example with hints."
       else "Plan: start with 1–2 simple examples, then you do 2 short practice checks.")
    else if knowledgeTier = "advanced" then
      (if conf ≥ 4 then "Plan: jump straight to challenge problems and edge-cases; we’ll only revisit basics if a miss repeats."
       else "Plan: do 1 compact refresher, then shift quickly into practice and targeted fixes.")
    else if knowledgeTier = "intermediate" then
      (if conf ≤ 2 then "Plan: do a quick refresher of the core model, then 2 small checks to rebuild confidence."
       else "Plan: do a quick recap, then practice with short checkpoints to find weak spots.")
    else
      (if conf ≤ 2 then "Plan: I’ll confirm basics with a few quick questions, then we’ll build up slowly."
       else "Plan: I’ll start with a short baseline check, then adapt depth based on what you get right.")
  let plan2 :=
    if conf ≤ 2 then "Micro-task: after each step, answer “what does this mean?” in 1 sentence (no pressure on speed)."
    else if conf = 3 then "Micro-task: after each section, do 1 quick check question before moving on."
    else "Micro-task: do 3 rapid-fire checks; if you miss one, explain the mistake in 1 sentence and continue."
  let close := nextStepPreview style topic
  [opener, profileLine, knowledgeLine, confidenceLine, calibrationLine, adaptationLine,
   plan1, plan2, nudge, close]

/-- Embeds `buildTutorInsight` from src/lib/explain.ts: the narrative
segments joined with line breaks. -/
def buildTutorInsight (input : ExplainInput) : String :=
  String.intercalate ("\n") (tutorInsightLines input)

/-! ### Basic unfolding lemmas -/

lemma decideNextStyle_scores (i : ExplainInput) :
    (decideNextStyle i).scores = calibratedScores i := rfl

lemma decideNextStyle_nextStyle (i : ExplainInput) :
    (decideNextStyle i).nextStyle = selectBest (calibratedScores i) := rfl

lemma buildExplainability_nextStyle (i : ExplainInput) :
    (buildExplainability i).nextStyle = (decideNextStyle i).nextStyle := rfl

lemma buildExplainability_reasons (i : ExplainInput) :
    (buildExplainability i).reasons = buildReasons i := rfl

lemma buildExplainability_trace (i : ExplainInput) :
    (buildExplainability i).decisionTrace = decisionTraceStr i := rfl

lemma ratAbs (x : ℚ) : |x| = if x < 0 then -x else x := by
  split_ifs with h
  · exact abs_of_neg h
  · exact abs_of_nonneg (not_lt.mp h)

lemma string_eq_of_data (a b : String) (h : a.data = b.data) : a = b :=
  congrArg String.mk h

lemma deltaScore_of_bounds (d : ℚ) (h0 : 0 ≤ d) (h1 : d ≤ 60) : deltaScore d = d / 60 := by
  unfold deltaScore clamp
  rw [min_eq_right (by linarith : d / 60 ≤ 1), max_eq_right (by positivity : (0:ℚ) ≤ d / 60)]

/-! ### Calibration exclusivity -/

lemma calib_not_both (c d : ℚ) :
    ((detectCalibration c d).isOverconfident && (detectCalibration c d).isUnderconfident) = false := by
  show ((confidenceLabel c == "high" && deltaBand d == "small") &&
    (confidenceLabel c == "low" && deltaBand d == "large")) = false
  by_cases hc : confidenceLabel c = "high"
  · rw [hc]
    have h2 : (("high" : String) == "low") = false := by decide
    simp [h2]
  · have h1 : (confidenceLabel c == "high") = false := by
      simpa using hc
    simp [h1]

lemma calib_over_not_under (c d : ℚ) (h : (detectCalibration c d).isOverconfident = true) :
    (detectCalibration c d).isUnderconfident = false := by
  have hb := calib_not_both c d
  rw [h] at hb
  simp at hb
  exact hb

lemma calib_under_not_over (c d : ℚ) (h : (detectCalibration c d).isUnderconfident = true) :
    (detectCalibration c d).isOverconfident = false := by
  have hb := calib_not_both c d
  rcases hx : (detectCalibration c d).isOverconfident
  · rfl
  · rw [hx, h] at hb
    simp at hb

/-- Claim C5: for every confidence and delta, the calibration state computed by
`detectCalibration` never has `isOverconfident` and `isUnderconfident` both true. -/
theorem calibration_exclusive (c d : ℚ) :
    ((detectCalibration c d).isOverconfident && (detectCalibration c d).isUnderconfident) = false := by
  show ((confidenceLabel c == "high" && deltaBand d == "small") &&
    (confidenceLabel c == "low" && deltaBand d == "large")) = false
  by_cases hc : confidenceLabel c = "high"
  · rw [hc]
    have h2 : (("high" : String) == "low") = false := by decide
    simp [h2]
  · have h1 : (confidenceLabel c == "high") = false := by
      simpa using hc
    simp [h1]

/-! ### Knowledge-label characterization -/

lemma dks_isEmpty_iff (s : String) :
    (detectKnowledgeSignals s).isEmpty = true ↔ trimStr s = "" := by
  constructor
  · intro h
    have h2 : ((trimStr s).length == 0) = true := h
    have h3 : (trimStr s).length = 0 := by simpa using h2
    have h4 : (trimStr s).data = [] := List.length_eq_zero.mp h3
    exact string_eq_of_data _ _ h4
  · intro h
    show ((trimStr s).length == 0) = true
    rw [h]
    rfl

lemma lowerStr_of_empty (s : String) (h : trimStr s = "") :
    lowerStr (normalize s) = "" := by
  apply string_eq_of_data
  show ((normalize s).data.map Char.toLower) = ("").data
  have h2 : normalize s = "" := h
  rw [h2]
  rfl

lemma dks_empty_no_mentions (s : String) (h : trimStr s = "") :
    (detectKnowledgeSignals s).mentionsAdvanced = false ∧
    (detectKnowledgeSignals s).mentionsBeginner = false := by
  have hl : lowerStr (normalize s) = "" := lowerStr_of_empty s h
  constructor
  · show (strIncludes (lowerStr (normalize s)) ("advanced") ||
      strIncludes (lowerStr (normalize s)) ("advance") ||
      strIncludes (lowerStr (normalize s)) ("expert") ||
      strIncludes (lowerStr (normalize s)) ("comfortable") ||
      strIncludes (lowerStr (normalize s)) ("strong")) = false
    rw [hl]
    decide
  · show (strIncludes (lowerStr (normalize s)) ("beginner") ||
      strIncludes (lowerStr (normalize s)) ("new") ||
      strIncludes (lowerStr (normalize s)) ("never") ||
      strIncludes (lowerStr (normalize s)) ("not much") ||
      strIncludes (lowerStr (normalize s)) ("basic") ||
      strIncludes (lowerStr (normalize s)) ("little")) = false
    rw [hl]
    decide

/-- Claim C6: `knowledgeLabel` returns "unknown" iff the trimmed text is
empty, "advanced" iff an advanced keyword is present and no beginner keyword,
"beginner" iff the reverse, and "mixed" otherwise (including both present);
and the two concrete example inputs classify as "beginner" and "mixed". -/
theorem knowledge_label_spec :
    (∀ s : String,
      (knowledgeLabel s = "unknown" ↔ trimStr s = "") ∧
      (knowledgeLabel s = "advanced" ↔
        ((detectKnowledgeSignals s).mentionsAdvanced = true ∧
          (detectKnowledgeSignals s).mentionsBeginner = false)) ∧
      (knowledgeLabel s = "beginner" ↔
        ((detectKnowledgeSignals s).mentionsBeginner = true ∧
          (detectKnowledgeSignals s).mentionsAdvanced = false)) ∧
      (knowledgeLabel s = "mixed" ↔
        (¬ trimStr s = "" ∧
          ((detectKnowledgeSignals s).mentionsAdvanced = true ↔
            (detectKnowledgeSignals s).mentionsBeginner = true)))) ∧
    knowledgeLabel "I\x27m a total beginner, never done this" = "beginner" ∧
    knowledgeLabel "I\x27m pretty advanced but still new to this part" = "mixed" := by
  refine ⟨?_, by decide, by decide⟩
  intro s
  have hlab : knowledgeLabel s =
      (if (detectKnowledgeSignals s).isEmpty then ("unknown")
       else if (detectKnowledgeSignals s).mentionsAdvanced &&
          !(detectKnowledgeSignals s).mentionsBeginner then ("advanced")
       else if (detectKnowledgeSignals s).mentionsBeginner &&
          !(detectKnowledgeSignals s).mentionsAdvanced then ("beginner")
       else ("mixed")) := rfl
  rcases hke : (detectKnowledgeSignals s).isEmpty
  · have hne : ¬ trimStr s = "" := by
      intro hh
      have h2 := (dks_isEmpty_iff s).mpr hh
      rw [hke] at h2
      exact absurd h2 (by decide)
    rcases hka : (detectKnowledgeSignals s).mentionsAdvanced <;>
      rcases hkb : (detectKnowledgeSignals s).mentionsBeginner
    · have hl : knowledgeLabel s = "mixed" := by
        simp only [hlab, hke, hka, hkb]
        decide
      rw [hl]
      exact ⟨iff_of_false (by decide) hne, iff_of_false (by decide) (by simp),
        iff_of_false (by decide) (by simp), iff_of_true rfl ⟨hne, by simp⟩⟩
    · have hl : knowledgeLabel s = "beginner" := by
        simp only [hlab, hke, hka, hkb]
        decide
      rw [hl]
      exact ⟨iff_of_false (by decide) hne, iff_of_false (by decide) (by simp),
        iff_of_true rfl (by simp), iff_of_false (by decide) (by simp)⟩
    · have hl : knowledgeLabel s = "advanced" := by
        simp only [hlab, hke, hka, hkb]
        decide
      rw [hl]
      exact ⟨iff_of_false (by decide) hne, iff_of_true rfl (by simp),
        iff_of_false (by decide) (by simp), iff_of_false (by decide) (by simp)⟩
    · have hl : knowledgeLabel s = "mixed" := by
        simp only [hlab, hke, hka, hkb]
        decide
      rw [hl]
      exact ⟨iff_of_false (by decide) hne, iff_of_false (by decide) (by simp),
        iff_of_false (by decide) (by simp), iff_of_true rfl ⟨hne, by simp⟩⟩
  · have ht : trimStr s = "" := (dks_isEmpty_iff s).mp hke
    obtain ⟨ha, hb⟩ := dks_empty_no_mentions s ht
    have hl : knowledgeLabel s = "unknown" := by
      simp only [hlab, hke]
      rfl
    rw [hl, ha, hb]
    exact ⟨iff_of_true rfl ht, iff_of_false (by decide) (by simp),
      iff_of_false (by decide) (by simp), iff_of_false (by decide) (fun hc => hc.1 ht)⟩

/-! ### Winner selection and tie-breaking -/

lemma selectBest_cases (s : StyleScores) :
    ((s.visual ≤ s.text ∧ s.quiz ≤ s.text) → selectBest s = LessonStyle.text) ∧
    ((s.text < s.visual ∧ s.quiz ≤ s.visual) → selectBest s = LessonStyle.visual) ∧
    ((s.text < s.quiz ∧ s.visual < s.quiz) → selectBest s = LessonStyle.quiz) := by
  unfold selectBest orderedStyles
  simp only [List.foldl_cons, List.foldl_nil, StyleScores.get, gt_iff_lt, lt_self_iff_false,
    if_false]
  by_cases h1 : s.text < s.visual
  · rw [if_pos h1]
    simp only [StyleScores.get]
    by_cases h2 : s.visual < s.quiz
    · rw [if_pos h2]
      refine ⟨fun h => ?_, fun h => ?_, fun h => ?_⟩
      · exact absurd h1 (not_lt.mpr h.1)
      · exact absurd h2 (not_lt.mpr h.2)
      · rfl
    · rw [if_neg h2]
      refine ⟨fun h => ?_, fun h => ?_, fun h => ?_⟩
      · exact absurd h1 (not_lt.mpr h.1)
      · rfl
      · exact absurd h.2 h2
  · rw [if_neg h1]
    simp only [StyleScores.get]
    by_cases h2 : s.text < s.quiz
    · rw [if_pos h2]
      refine ⟨fun h => ?_, fun h => ?_, fun h => ?_⟩
      · exact absurd h2 (not_lt.mpr h.2)
      · exact absurd h.1 h1
      · rfl
    · rw [if_neg h2]
      refine ⟨fun h => ?_, fun h => ?_, fun h => ?_⟩
      · rfl
      · exact absurd h.1 h1
      · exact absurd h.1 h2

/-- Claim C1: winner selection scans styles in the fixed order text, visual,
quiz and replaces the current best only on a strictly greater score, so an
all-way tie yields text, and any tie is resolved for the earlier style in
that order. -/
theorem winner_tie_break (i : ExplainInput) :
    ((decideNextStyle i).scores.text = (decideNextStyle i).scores.visual →
      (decideNextStyle i).scores.visual = (decideNextStyle i).scores.quiz →
      ((decideNextStyle i).nextStyle = LessonStyle.text ∧
        (buildExplainability i).nextStyle = LessonStyle.text)) ∧
    (((decideNextStyle i).scores.visual ≤ (decideNextStyle i).scores.text ∧
      (decideNextStyle i).scores.quiz ≤ (decideNextStyle i).scores.text) →
      (decideNextStyle i).nextStyle = LessonStyle.text) ∧
    (((decideNextStyle i).scores.text < (decideNextStyle i).scores.visual ∧
      (decideNextStyle i).scores.quiz ≤ (decideNextStyle i).scores.visual) →
      (decideNextStyle i).nextStyle = LessonStyle.visual) ∧
    (((decideNextStyle i).scores.text < (decideNextStyle i).scores.quiz ∧
      (decideNextStyle i).scores.visual < (decideNextStyle i).scores.quiz) →
      (decideNextStyle i).nextStyle = LessonStyle.quiz) := by
  have hsel := selectBest_cases (calibratedScores i)
  rw [decideNextStyle_scores, buildExplainability_nextStyle, decideNextStyle_nextStyle]
  refine ⟨fun e1 e2 => ?_, hsel.1, hsel.2.1, hsel.2.2⟩
  have he : selectBest (calibratedScores i) = LessonStyle.text :=
    hsel.1 ⟨le_of_eq e1.symm, le_of_eq (e1.trans e2).symm⟩
  exact ⟨he, he⟩

lemma eval_confScore : confidenceScore (13/7) = 3/14 := by
  unfold confidenceScore clamp
  rw [min_eq_right (by norm_num : (13:ℚ)/7 ≤ 5), max_eq_right (by norm_num : (1:ℚ) ≤ 13/7)]
  norm_num

lemma eval_deltaScore : deltaScore (110/3) = 11/18 := by
  rw [deltaScore_of_bounds _ (by norm_num) (by norm_num)]
  norm_num

lemma eval_knowledge : knowledgeLabel "advanced" = "advanced" := by decide

lemma eval_calib : detectCalibration (13/7) (110/3) = ⟨"low", "moderate", false, false⟩ := by
  have hc : confidenceLabel (13/7) = "low" := by
    unfold confidenceLabel clamp
    rw [min_eq_right (by norm_num : (13:ℚ)/7 ≤ 5), max_eq_right (by norm_num : (1:ℚ) ≤ 13/7)]
    rw [if_pos (by norm_num : (13:ℚ)/7 ≤ 2)]
  have hd : deltaBand (110/3) = "moderate" := by
    unfold deltaBand
    rw [if_neg (by norm_num : ¬((110:ℚ)/3 < 20)), if_pos (by norm_num : (110:ℚ)/3 < 40)]
  show (⟨confidenceLabel (13/7), deltaBand (110/3),
      confidenceLabel (13/7) == "high" && deltaBand (110/3) == "small",
      confidenceLabel (13/7) == "low" && deltaBand (110/3) == "large"⟩ : CalibrationState) = _
  rw [hc, hd]
  rfl

lemma eval_base :
    baseScores ⟨"", "advanced", 13/7, 110/3, LessonStyle.visual⟩ = ⟨1/2, 1/2, 1/2⟩ := by
  unfold baseScores
  dsimp only
  rw [eval_confScore, eval_deltaScore, eval_knowledge]
  norm_num [weights, StyleScores.add, ratAbs]

lemma eval_scores :
    (decideNextStyle ⟨"", "advanced", 13/7, 110/3, LessonStyle.visual⟩).scores = ⟨1/2, 1/2, 1/2⟩ := by
  rw [decideNextStyle_scores]
  have hc : calibratedScores ⟨"", "advanced", 13/7, 110/3, LessonStyle.visual⟩ =
      baseScores ⟨"", "advanced", 13/7, 110/3, LessonStyle.visual⟩ := by
    unfold calibratedScores
    dsimp only
    rw [eval_calib]
    rfl
  rw [hc, eval_base]

/-- Witness for C1: a concrete input whose three style scores are all equal
(each 1/2), on which the winner is text. -/
theorem winner_tie_break_witness :
    (decideNextStyle ⟨"", "advanced", 13/7, 110/3, LessonStyle.visual⟩).scores.text =
      (decideNextStyle ⟨"", "advanced", 13/7, 110/3, LessonStyle.visual⟩).scores.visual ∧
    (decideNextStyle ⟨"", "advanced", 13/7, 110/3, LessonStyle.visual⟩).scores.visual =
      (decideNextStyle ⟨"", "advanced", 13/7, 110/3, LessonStyle.visual⟩).scores.quiz ∧
    (decideNextStyle ⟨"", "advanced", 13/7, 110/3, LessonStyle.visual⟩).nextStyle = LessonStyle.text := by
  have h1 : (decideNextStyle ⟨"", "advanced", 13/7, 110/3, LessonStyle.visual⟩).scores.text =
      (decideNextStyle ⟨"", "advanced", 13/7, 110/3, LessonStyle.visual⟩).scores.visual := by
    rw [eval_scores]
  have h2 : (decideNextStyle ⟨"", "advanced", 13/7, 110/3, LessonStyle.visual⟩).scores.visual =
      (decideNextStyle ⟨"", "advanced", 13/7, 110/3, LessonStyle.visual⟩).scores.quiz := by
    rw [eval_scores]
  exact ⟨h1, h2, ((winner_tie_break _).1 h1 h2).1⟩

/-! ### Determinism -/

/-- Claim C9: `buildExplainability` and `buildTutorInsight` are deterministic —
equal inputs give identical decision, next style, reasons, trace and insight;
the embedding is a pure function of the input record and the policy constants. -/
theorem engine_deterministic (i1 i2 : ExplainInput) (h : i1 = i2) :
    buildExplainability i1 = buildExplainability i2 ∧
    buildTutorInsight i1 = buildTutorInsight i2 := by
  subst h
  exact ⟨rfl, rfl⟩

/-- Witness for C9 at a concrete input. -/
theorem engine_deterministic_witness :
    buildExplainability ⟨"Algebra basics", "Basic", 3, 50, LessonStyle.visual⟩ =
      buildExplainability ⟨"Algebra basics", "Basic", 3, 50, LessonStyle.visual⟩ ∧
    buildTutorInsight ⟨"Algebra basics", "Basic", 3, 50, LessonStyle.visual⟩ =
      buildTutorInsight ⟨"Algebra basics", "Basic", 3, 50, LessonStyle.visual⟩ :=
  engine_deterministic ⟨"Algebra basics", "Basic", 3, 50, LessonStyle.visual⟩
    ⟨"Algebra basics", "Basic", 3, 50, LessonStyle.visual⟩ rfl

/-! ### Decision trace format -/

lemma str_append_assoc (a b c : String) : a ++ b ++ c = a ++ (b ++ c) := by
  apply string_eq_of_data
  show (a.data ++ b.data) ++ c.data = a.data ++ (b.data ++ c.data)
  exact List.append_assoc a.data b.data c.data

lemma intercalate_pair (x y : String) : String.intercalate (",") [x, y] = x ++ "," ++ y := rfl

lemma insertByValue_length (x : String × ℚ) (l : List (String × ℚ)) :
    (insertByValue x l).length = l.length + 1 := by
  induction l with
  | nil => rfl
  | cons y ys ih =>
    unfold insertByValue
    split_ifs
    · rfl
    · simp only [List.length_cons, ih]

lemma sortByValue_length (l : List (String × ℚ)) : (sortByValue l).length = l.length := by
  induction l with
  | nil => rfl
  | cons x xs ih =>
    unfold sortByValue
    rw [insertByValue_length, ih]
    rfl

lemma exists_two_of_length {α : Type} (l : List α) (h : 2 ≤ l.length) :
    ∃ a b rest, l = a :: b :: rest := by
  rcases l with _ | ⟨a, _ | ⟨b, rest⟩⟩
  · simp at h
  · simp at h
  · exact ⟨a, b, rest, rfl⟩

/-- Claim C2: the decision trace follows the documented field order and
separators exactly, where the version is the policy constant, start is the
input style, next the chosen style, conf the clamped confidence with its
band, knowledge the derived label, delta the raw input delta with its band,
and the top signals are the two contribution names of highest influence. -/
theorem decision_trace_format (i : ExplainInput) :
    ∃ sig1 sig2 : String,
      topSignalNames i = [sig1, sig2] ∧
      (buildExplainability i).decisionTrace =
        "policy=" ++ DECISION_POLICY_VERSION ++ " • start=" ++ styleName i.startingStyle ++
          " → next=" ++ styleName (buildExplainability i).nextStyle ++ " • conf=" ++
          jsNumStr (clamp i.confidence 1 5) ++ "/5(" ++ confidenceLabel (clamp i.confidence 1 5) ++
          ") • knowledge=" ++ knowledgeLabel i.priorKnowledge ++ " • delta=+" ++
          jsNumStr i.delta ++ "(" ++ deltaBand i.delta ++ ") • top=" ++ sig1 ++ "," ++ sig2 := by
  obtain ⟨a, b, rest, hs⟩ := exists_two_of_length
    (sortByValue (contribEntries (decideNextStyle i).contributions))
    (by rw [sortByValue_length]; norm_num [contribEntries])
  have htop : topSignalNames i = [a.1, b.1] := by
    unfold topSignalNames
    rw [hs]
    rfl
  refine ⟨a.1, b.1, htop, ?_⟩
  rw [buildExplainability_trace, buildExplainability_nextStyle]
  unfold decisionTraceStr
  dsimp only
  rw [htop, intercalate_pair]
  simp only [str_append_assoc]

/-! ### Confidence clamping equivalence -/

lemma clamp_clamp (c : ℚ) : clamp (clamp c 1 5) 1 5 = clamp c 1 5 := by
  unfold clamp
  simp only [max_def, min_def]
  split_ifs <;> first | rfl | linarith

lemma confidenceScore_clamp (c : ℚ) : confidenceScore (clamp c 1 5) = confidenceScore c := by
  unfold confidenceScore
  rw [clamp_clamp]

lemma confidenceLabel_clamp (c : ℚ) : confidenceLabel (clamp c 1 5) = confidenceLabel c := by
  unfold confidenceLabel
  rw [clamp_clamp]

lemma detectCalibration_clamp (c d : ℚ) :
    detectCalibration (clamp c 1 5) d = detectCalibration c d := by
  unfold detectCalibration
  rw [confidenceLabel_clamp]

lemma baseScores_clamp (i : ExplainInput) :
    baseScores ⟨i.topic, i.priorKnowledge, clamp i.confidence 1 5, i.delta, i.startingStyle⟩ =
      baseScores i := by
  unfold baseScores
  dsimp only
  rw [confidenceScore_clamp]

lemma calibratedScores_clamp (i : ExplainInput) :
    calibratedScores ⟨i.topic, i.priorKnowledge, clamp i.confidence 1 5, i.delta, i.startingStyle⟩ =
      calibratedScores i := by
  unfold calibratedScores
  dsimp only
  rw [baseScores_clamp, detectCalibration_clamp]

lemma decideNextStyle_clamp (i : ExplainInput) :
    decideNextStyle ⟨i.topic, i.priorKnowledge, clamp i.confidence 1 5, i.delta, i.startingStyle⟩ =
      decideNextStyle i := by
  unfold decideNextStyle
  dsimp only
  rw [confidenceScore_clamp, calibratedScores_clamp]

lemma topSignalNames_clamp (i : ExplainInput) :
    topSignalNames ⟨i.topic, i.priorKnowledge, clamp i.confidence 1 5, i.delta, i.startingStyle⟩ =
      topSignalNames i := by
  unfold topSignalNames
  rw [decideNextStyle_clamp]

lemma buildReasons_clamp (i : ExplainInput) :
    buildReasons ⟨i.topic, i.priorKnowledge, clamp i.confidence 1 5, i.delta, i.startingStyle⟩ =
      buildReasons i := by
  unfold buildReasons
  dsimp only
  rw [clamp_clamp, decideNextStyle_clamp]

lemma decisionTraceStr_clamp (i : ExplainInput) :
    decisionTraceStr ⟨i.topic, i.priorKnowledge, clamp i.confidence 1 5, i.delta, i.startingStyle⟩ =
      decisionTraceStr i := by
  unfold decisionTraceStr
  dsimp only
  rw [clamp_clamp, decideNextStyle_clamp, topSignalNames_clamp]

lemma tutorInsightLines_clamp (i : ExplainInput) :
    tutorInsightLines ⟨i.topic, i.priorKnowledge, clamp i.confidence 1 5, i.delta, i.startingStyle⟩ =
      tutorInsightLines i := by
  unfold tutorInsightLines
  dsimp only
  rw [clamp_clamp, decideNextStyle_clamp]

lemma buildExplainability_clamp (i : ExplainInput) :
    buildExplainability ⟨i.topic, i.priorKnowledge, clamp i.confidence 1 5, i.delta, i.startingStyle⟩ =
      buildExplainability i := by
  unfold buildExplainability
  dsimp only
  rw [decideNextStyle_clamp, buildReasons_clamp, decisionTraceStr_clamp]

lemma buildTutorInsight_clamp (i : ExplainInput) :
    buildTutorInsight ⟨i.topic, i.priorKnowledge, clamp i.confidence 1 5, i.delta, i.startingStyle⟩ =
      buildTutorInsight i := by
  unfold buildTutorInsight
  rw [tutorInsightLines_clamp]

/-- Claim C3: for confidence outside [1,5], every output of
`buildExplainability` and the whole `buildTutorInsight` string are identical
to the ones produced with confidence replaced by the nearest bound (1 below,
5 above). -/
theorem confidence_clamping (i : ExplainInput) (h : i.confidence < 1 ∨ 5 < i.confidence) :
    buildExplainability ⟨i.topic, i.priorKnowledge, if i.confidence < 1 then 1 else 5,
        i.delta, i.startingStyle⟩ = buildExplainability i ∧
    buildTutorInsight ⟨i.topic, i.priorKnowledge, if i.confidence < 1 then 1 else 5,
        i.delta, i.startingStyle⟩ = buildTutorInsight i := by
  have hb : (if i.confidence < 1 then (1:ℚ) else 5) = clamp i.confidence 1 5 := by
    rcases h with h | h
    · rw [if_pos h]
      unfold clamp
      rw [min_eq_right (by linarith : i.confidence ≤ 5), max_eq_left (by linarith : i.confidence ≤ 1)]
    · rw [if_neg (by linarith)]
      unfold clamp
      rw [min_eq_left (by linarith : (5:ℚ) ≤ i.confidence), max_eq_right (by norm_num : (1:ℚ) ≤ 5)]
  rw [hb]
  exact ⟨buildExplainability_clamp i, buildTutorInsight_clamp i⟩

/-- Witness for C3 at confidence 7, which clamps to 5. -/
theorem confidence_clamping_witness :
    buildExplainability ⟨"", "", if (7:ℚ) < 1 then 1 else 5, 30, LessonStyle.text⟩ =
      buildExplainability ⟨"", "", 7, 30, LessonStyle.text⟩ ∧
    buildTutorInsight ⟨"", "", if (7:ℚ) < 1 then 1 else 5, 30, LessonStyle.text⟩ =
      buildTutorInsight ⟨"", "", 7, 30, LessonStyle.text⟩ :=
  confidence_clamping ⟨"", "", 7, 30, LessonStyle.text⟩ (Or.inr (by norm_num))

/-! ### Negative delta handling -/

lemma deltaScore_nonpos (d : ℚ) (h : d ≤ 0) : deltaScore d = 0 := by
  unfold deltaScore clamp
  have hd : d / 60 ≤ 0 := by
    rw [div_nonpos_iff]
    right
    exact ⟨h, by norm_num⟩
  rw [min_eq_right (le_trans hd (by norm_num)), max_eq_left hd]

lemma deltaScore_zero : deltaScore 0 = 0 := by
  rw [deltaScore_of_bounds 0 le_rfl (by norm_num)]
  norm_num

lemma deltaBand_neg (d : ℚ) (h : d < 0) : deltaBand d = "small" := by
  unfold deltaBand
  rw [if_pos (by linarith : d < 20)]

lemma deltaBand_zero : deltaBand 0 = "small" := by
  unfold deltaBand
  rw [if_pos (by norm_num : (0:ℚ) < 20)]

lemma detectCalibration_negDelta (c d : ℚ) (h : d < 0) :
    detectCalibration c 0 = detectCalibration c d := by
  unfold detectCalibration
  rw [deltaBand_zero, deltaBand_neg d h]

lemma baseScores_negDelta (i : ExplainInput) (h : i.delta < 0) :
    baseScores ⟨i.topic, i.priorKnowledge, i.confidence, 0, i.startingStyle⟩ = baseScores i := by
  unfold baseScores
  dsimp only
  rw [deltaScore_zero, deltaScore_nonpos i.delta (le_of_lt h)]

lemma calibratedScores_negDelta (i : ExplainInput) (h : i.delta < 0) :
    calibratedScores ⟨i.topic, i.priorKnowledge, i.confidence, 0, i.startingStyle⟩ =
      calibratedScores i := by
  unfold calibratedScores
  dsimp only
  rw [baseScores_negDelta i h, detectCalibration_negDelta i.confidence i.delta h]

lemma decideNextStyle_negDelta (i : ExplainInput) (h : i.delta < 0) :
    decideNextStyle ⟨i.topic, i.priorKnowledge, i.confidence, 0, i.startingStyle⟩ =
      decideNextStyle i := by
  unfold decideNextStyle
  dsimp only
  rw [deltaScore_zero, deltaScore_nonpos i.delta (le_of_lt h), calibratedScores_negDelta i h]

lemma buildExplainability_decision (i : ExplainInput) :
    (buildExplainability i).decision = decisionTitle (decideNextStyle i).nextStyle := rfl

/-- Claim C4 (amended): with a negative delta all scoring-relevant derived
quantities — the full `decideNextStyle` result (scores, winner,
contributions), the delta band, and hence the decision title and next style
of `buildExplainability` — equal those for delta 0; the output strings
merely echo the raw delta digit and so differ only there. -/
theorem negative_delta_scoring (i : ExplainInput) (h : i.delta < 0) :
    decideNextStyle ⟨i.topic, i.priorKnowledge, i.confidence, 0, i.startingStyle⟩ =
      decideNextStyle i ∧
    deltaBand i.delta = deltaBand 0 ∧
    (buildExplainability ⟨i.topic, i.priorKnowledge, i.confidence, 0, i.startingStyle⟩).nextStyle =
      (buildExplainability i).nextStyle ∧
    (buildExplainability ⟨i.topic, i.priorKnowledge, i.confidence, 0, i.startingStyle⟩).decision =
      (buildExplainability i).decision := by
  have hd := decideNextStyle_negDelta i h
  refine ⟨hd, ?_, ?_, ?_⟩
  · rw [deltaBand_neg i.delta h, deltaBand_zero]
  · rw [buildExplainability_nextStyle, buildExplainability_nextStyle, hd]
  · rw [buildExplainability_decision, buildExplainability_decision, hd]

/-- Witness for C4 (amended) at delta = -5. -/
theorem negative_delta_scoring_witness :
    decideNextStyle ⟨"", "", 3, 0, LessonStyle.text⟩ =
      decideNextStyle ⟨"", "", 3, -5, LessonStyle.text⟩ ∧
    deltaBand (-5) = deltaBand 0 ∧
    (buildExplainability ⟨"", "", 3, 0, LessonStyle.text⟩).nextStyle =
      (buildExplainability ⟨"", "", 3, -5, LessonStyle.text⟩).nextStyle ∧
    (buildExplainability ⟨"", "", 3, 0, LessonStyle.text⟩).decision =
      (buildExplainability ⟨"", "", 3, -5, LessonStyle.text⟩).decision :=
  negative_delta_scoring ⟨"", "", 3, -5, LessonStyle.text⟩ (by norm_num)

/-- Counterexample for C4 as stated: at delta = -5 the third reason string
echoes "+-5" while at delta = 0 it echoes "+0", so the reasons lists (and
thus the outputs) are not identical. -/
theorem negative_delta_counterexample :
    (((buildExplainability ⟨"", "", 3, -5, LessonStyle.text⟩).reasons)[2]? ==
      ((buildExplainability ⟨"", "", 3, 0, LessonStyle.text⟩).reasons)[2]?) = false := by
  have h1 : ((buildExplainability ⟨"", "", 3, -5, LessonStyle.text⟩).reasons)[2]? =
      some ("The system inferred that your learning delta (+" ++ jsNumStr (-5) ++ ") is " ++
        deltaBand (-5) ++ ", which determines how strongly it adapts the format.") := by
    rw [buildExplainability_reasons]
    unfold buildReasons
    dsimp only
    simp only [List.cons_append, List.nil_append, List.getElem?_cons_succ,
      List.getElem?_cons_zero]
  have h2 : ((buildExplainability ⟨"", "", 3, 0, LessonStyle.text⟩).reasons)[2]? =
      some ("The system inferred that your learning delta (+" ++ jsNumStr 0 ++ ") is " ++
        deltaBand 0 ++ ", which determines how strongly it adapts the format.") := by
    rw [buildExplainability_reasons]
    unfold buildReasons
    dsimp only
    simp only [List.cons_append, List.nil_append, List.getElem?_cons_succ,
      List.getElem?_cons_zero]
  rw [h1, h2]
  decide

/-! ### Overconfidence scenario -/

lemma clamp5 : clamp 5 1 5 = 5 := by
  unfold clamp
  rw [min_eq_right (le_refl (5:ℚ)), max_eq_right (by norm_num : (1:ℚ) ≤ 5)]

lemma confidenceLabel5 : confidenceLabel 5 = "high" := by
  unfold confidenceLabel
  dsimp only
  rw [clamp5, if_neg (by norm_num : ¬((5:ℚ) ≤ 2)), if_neg (by norm_num : ¬((5:ℚ) = 3))]

lemma deltaBand5 : deltaBand 5 = "small" := by
  unfold deltaBand
  rw [if_pos (by norm_num : (5:ℚ) < 20)]

lemma calib55 : detectCalibration 5 5 = ⟨"high", "small", true, false⟩ := by
  show (⟨confidenceLabel 5, deltaBand 5,
      confidenceLabel 5 == "high" && deltaBand 5 == "small",
      confidenceLabel 5 == "low" && deltaBand 5 == "large"⟩ : CalibrationState) = _
  rw [confidenceLabel5, deltaBand5]
  rfl

/-- Claim C7: with confidence 5 and delta 5 the calibration is overconfident
(high band, small band), the final scores equal the accumulated weighted
scores adjusted by exactly quiz -0.08, text +0.05, visual +0.03, the
overconfidence reason is among the reasons, and the tutor-insight
calibration line (index 4) is exactly the overconfidence message. -/
theorem overconfident_scenario (i : ExplainInput) (h1 : i.confidence = 5) (h2 : i.delta = 5) :
    (detectCalibration i.confidence i.delta).confBand = "high" ∧
    (detectCalibration i.confidence i.delta).dBand = "small" ∧
    (detectCalibration i.confidence i.delta).isOverconfident = true ∧
    (decideNextStyle i).scores.quiz = (baseScores i).quiz - 0.08 ∧
    (decideNextStyle i).scores.text = (baseScores i).text + 0.05 ∧
    (decideNextStyle i).scores.visual = (baseScores i).visual + 0.03 ∧
    "Confidence calibration: your confidence reads as high, but the learning delta is small. The system treated this as a signal to add explanation before more practice." ∈ (buildExplainability i).reasons ∧
    (tutorInsightLines i)[4]? = some ("Calibration note: your confidence is high, but the learning delta is small. I’ll slow the ramp and make the model explicit before adding more practice.") := by
  have hcal : detectCalibration i.confidence i.delta = ⟨"high", "small", true, false⟩ := by
    rw [h1, h2, calib55]
  have hclamp : clamp i.confidence 1 5 = 5 := by
    rw [h1, clamp5]
  have hcal2 : detectCalibration (clamp i.confidence 1 5) i.delta = ⟨"high", "small", true, false⟩ := by
    rw [hclamp, h2, calib55]
  have hscores : calibratedScores i =
      ⟨(baseScores i).visual + 0.03, (baseScores i).text + 0.05, (baseScores i).quiz - 0.08⟩ := by
    unfold calibratedScores
    dsimp only
    rw [hcal]
    rfl
  refine ⟨?_, ?_, ?_, ?_, ?_, ?_, ?_, ?_⟩
  · rw [hcal]
  · rw [hcal]
  · rw [hcal]
  · rw [decideNextStyle_scores, hscores]
  · rw [decideNextStyle_scores, hscores]
  · rw [decideNextStyle_scores, hscores]
  · rw [buildExplainability_reasons]
    unfold buildReasons
    dsimp only
    rw [hcal2]
    simp
  · unfold tutorInsightLines
    dsimp only
    rw [hcal2]
    simp only [List.getElem?_cons_succ, List.getElem?_cons_zero]
    simp

/-- Witness for C7 at the concrete input (confidence 5, delta 5). -/
theorem overconfident_scenario_witness :
    (detectCalibration (5:ℚ) 5).confBand = "high" ∧
    (detectCalibration (5:ℚ) 5).dBand = "small" ∧
    (detectCalibration (5:ℚ) 5).isOverconfident = true ∧
    (decideNextStyle ⟨"", "", 5, 5, LessonStyle.text⟩).scores.quiz =
      (baseScores ⟨"", "", 5, 5, LessonStyle.text⟩).quiz - 0.08 ∧
    (decideNextStyle ⟨"", "", 5, 5, LessonStyle.text⟩).scores.text =
      (baseScores ⟨"", "", 5, 5, LessonStyle.text⟩).text + 0.05 ∧
    (decideNextStyle ⟨"", "", 5, 5, LessonStyle.text⟩).scores.visual =
      (baseScores ⟨"", "", 5, 5, LessonStyle.text⟩).visual + 0.03 ∧
    "Confidence calibration: your confidence reads as high, but the learning delta is small. The system treated this as a signal to add explanation before more practice." ∈ (buildExplainability ⟨"", "", 5, 5, LessonStyle.text⟩).reasons ∧
    (tutorInsightLines ⟨"", "", 5, 5, LessonStyle.text⟩)[4]? = some ("Calibration note: your confidence is high, but the learning delta is small. I’ll slow the ramp and make the model explicit before adding more practice.") :=
  overconfident_scenario ⟨"", "", 5, 5, LessonStyle.text⟩ rfl rfl

/-! ### Reasons length bounds -/

/-- Claim C10: the reasons list always has between 3 and 5 entries — three
unconditional reasons, at most one calibration reason (the two flags are
mutually exclusive) and at most one style-affinity reason (the two guards
require different chosen styles). -/
theorem reasons_length_bounds (i : ExplainInput) :
    3 ≤ (buildExplainability i).reasons.length ∧ (buildExplainability i).reasons.length ≤ 5 := by
  have hlen : (buildReasons i).length =
      3 + (if (detectCalibration (clamp i.confidence 1 5) i.delta).isOverconfident then 1 else 0)
        + (if (detectCalibration (clamp i.confidence 1 5) i.delta).isUnderconfident then 1 else 0)
        + (if (decideNextStyle i).nextStyle = LessonStyle.visual ∧
            (detectKnowledgeSignals i.priorKnowledge).mentionsVisual then 1 else 0)
        + (if (decideNextStyle i).nextStyle = LessonStyle.quiz ∧
            ((detectKnowledgeSignals i.priorKnowledge).mentionsExamples ∨
              confidenceLabel (clamp i.confidence 1 5) = "high") then 1 else 0) := by
    unfold buildReasons
    dsimp only
    simp only [List.length_append, List.length_cons, List.length_nil, apply_ite List.length]
  rw [buildExplainability_reasons, hlen]
  have e1 : (if (detectCalibration (clamp i.confidence 1 5) i.delta).isOverconfident then 1 else 0)
      + (if (detectCalibration (clamp i.confidence 1 5) i.delta).isUnderconfident then 1 else 0)
      ≤ 1 := by
    rcases hov : (detectCalibration (clamp i.confidence 1 5) i.delta).isOverconfident
    · split_ifs <;> simp_all
    · rw [calib_over_not_under _ _ hov]
      simp
  have e2 : (if (decideNextStyle i).nextStyle = LessonStyle.visual ∧
        (detectKnowledgeSignals i.priorKnowledge).mentionsVisual then 1 else 0)
      + (if (decideNextStyle i).nextStyle = LessonStyle.quiz ∧
          ((detectKnowledgeSignals i.priorKnowledge).mentionsExamples ∨
            confidenceLabel (clamp i.confidence 1 5) = "high") then 1 else 0) ≤ 1 := by
    by_cases h3 : (decideNextStyle i).nextStyle = LessonStyle.visual ∧
        (detectKnowledgeSignals i.priorKnowledge).mentionsVisual
    · rw [if_pos h3, if_neg (fun h4 => absurd (h3.1.symm.trans h4.1) (by decide))]
    · rw [if_neg h3]
      split_ifs <;> norm_num
  constructor
  · omega
  · omega

/-! ### Delta-term monotonicity -/

/-- Claim C8: for 0 ≤ d1 < d2 ≤ 60 the quiz delta-contribution term
(delta weight times normalized delta) strictly increases and the visual
delta-contribution term (delta weight times one minus normalized delta)
strictly decreases. -/
theorem delta_term_monotone (d1 d2 : ℚ) (h0 : 0 ≤ d1) (h12 : d1 < d2) (h60 : d2 ≤ 60) :
    weights.delta * deltaScore d1 < weights.delta * deltaScore d2 ∧
    weights.delta * (1 - deltaScore d2) < weights.delta * (1 - deltaScore d1) := by
  have e1 : deltaScore d1 = d1 / 60 := deltaScore_of_bounds d1 h0 (by linarith)
  have e2 : deltaScore d2 = d2 / 60 := deltaScore_of_bounds d2 (by linarith) h60
  rw [e1, e2]
  have hw : weights.delta = 0.45 := rfl
  rw [hw]
  constructor
  · have : d1 / 60 < d2 / 60 := by linarith
    nlinarith [this]
  · have : d1 / 60 < d2 / 60 := by linarith
    nlinarith [this]

/-- Witness for C8 at d1 = 10, d2 = 20. -/
theorem delta_term_monotone_witness :
    weights.delta * deltaScore 10 < weights.delta * deltaScore 20 ∧
    weights.delta * (1 - deltaScore 20) < weights.delta * (1 - deltaScore 10) :=
  delta_term_monotone 10 20 (by norm_num) (by norm_num) (by norm_num)

end Explain
